import Mathlib

/-!
Verification of the `PhysicalNetwork` manager (`server/PhysicalNetwork.cpp`
of the netd repository) against its natural-language specification.

Shallow embedding: the manager's in-memory state is a Lean structure, and
every collaborator invocation (RouteController, SockDiag, the fallthrough
delegate) is recorded as an `Event` in a trace while its integer result is
supplied by an `Oracle`, an explicit environment standing for the injected
collaborators. Each member function of the C++ class becomes a pure Lean
function from an oracle and a state to an `Outcome` (result code, new state,
trace of collaborator calls), translated clause by clause from the source.

Pieces of the repository that the source file uses but that are not among
the provided sources (the base-class members `hasInterface`,
`addToUidRangeMap`, `removeFromUidRangeMap`, `canAddUidRanges`, the
`std::set` holding the interfaces, and the `UidRanges.h` sub-priority
constants) are modelled from the specification; each such definition says so
in its doc comment.
-/

namespace NetdPhysicalNetwork

/-- Access-permission levels of a network. The source manipulates them
opaquely, comparing only for equality and singling out `PERMISSION_NONE`
(the constructor-time initial value). -/
inductive Permission where
  | PERMISSION_NONE
  | PERMISSION_NETWORK
  | PERMISSION_SYSTEM
deriving DecidableEq, Repr

/-- A UID range, an inclusive interval of user ids (opaque data here). -/
abbrev UidRange := Nat × Nat

/-- A set of UID ranges, as carried by one `addUsers`/`removeUsers` call. -/
abbrev UidRanges := List UidRange

/-- Modelled from the spec: the accumulated mapping from sub-priority to the
UID ranges registered at that sub-priority (base-class field, source not
provided). Represented as an association list with unique keys. -/
abbrev UidRangeMap := List (Int × UidRanges)

/-- Error number used for "diagnostics facility cannot be opened"
(`-EBADFD` in the source). -/
def EBADFD : Int := 77

/-- Error number for invalid arguments (`-EINVAL` in the source). -/
def EINVAL : Int := 22

/-- Modelled from the spec: `UidRanges.h` is not among the sources; the spec
fixes only that sub-priorities form a closed highest..lowest range. Highest
priority is the smallest number. -/
def SUB_PRIORITY_HIGHEST : Int := 0

/-- Modelled from the spec: lower bound (largest number) of the ordinary
sub-priority range. -/
def SUB_PRIORITY_LOWEST : Int := 999

/-- Modelled from the spec: the sentinel sub-priority meaning "never used as
a default route", distinct from the ordinary range. -/
def SUB_PRIORITY_NO_DEFAULT : Int := 1000

/-- One collaborator invocation, as observed at the boundary between the
manager and its injected collaborators (`rc` = RouteController, `sd` =
SockDiag, `delegate` = the fallthrough delegate). -/
inductive Event where
  | rcAddInterfaceToDefaultNetwork (interface : String) (permission : Permission)
  | rcRemoveInterfaceFromDefaultNetwork (interface : String) (permission : Permission)
  | delegateAddFallthrough (interface : String) (permission : Permission)
  | delegateRemoveFallthrough (interface : String) (permission : Permission)
  | rcModifyPhysicalNetworkPermission (netId : Nat) (interface : String)
      (oldPermission newPermission : Permission) (isLocal : Bool)
  | rcAddRoute (interface destination routeType tableType : String) (mtu priority : Int)
  | rcRemoveRoute (interface destination routeType tableType : String) (priority : Int)
  | rcAddInterfaceToPhysicalNetwork (netId : Nat) (interface : String)
      (permission : Permission) (uidRangeMap : UidRangeMap) (isLocal : Bool)
  | rcRemoveInterfaceFromPhysicalNetwork (netId : Nat) (interface : String)
      (permission : Permission) (uidRangeMap : UidRangeMap) (isLocal : Bool)
  | rcAddUsersToPhysicalNetwork (netId : Nat) (interface : String)
      (subPriority : Int) (uidRanges : UidRanges) (isLocal : Bool)
  | rcRemoveUsersFromPhysicalNetwork (netId : Nat) (interface : String)
      (subPriority : Int) (uidRanges : UidRanges) (isLocal : Bool)
  | sdOpen
  | sdDestroySocketsLackingPermission (netId : Nat) (permission : Permission)
      (excludeLoopback : Bool)
deriving DecidableEq, Repr

/-- The environment of injected collaborators: `call` gives the integer
result of each RouteController / delegate / SockDiag-destroy invocation
(0 = success), `sdOpenOk` tells whether `SockDiag::open` succeeds. -/
structure Oracle where
  call : Event → Int
  sdOpenOk : Bool

/-- The manager's in-memory state: the fields of the `PhysicalNetwork`
object (`mNetId`, `mPermission`, `mIsDefault`, `mIsLocalNetwork`,
`mInterfaces`, `mUidRangeMap`). The `std::set<std::string>` of interfaces is
modelled (from the spec: uniqueness enforced, order irrelevant) as a
duplicate-free list whose order abstracts the set's iteration order. -/
structure PhysicalNetwork where
  netId : Nat
  permission : Permission
  isDefault : Bool
  isLocalNetwork : Bool
  interfaces : List String
  uidRangeMap : UidRangeMap
deriving DecidableEq, Repr

/-- Result of one member-function call: the returned error code, the state
of the object after the call, and the trace of collaborator invocations
made during the call, in order. -/
structure Outcome where
  ret : Int
  st : PhysicalNetwork
  trace : List Event
deriving DecidableEq, Repr

namespace PhysicalNetwork

/-- Modelled from the spec: the base-class interface-membership check
("set lookup, pure"; `Network::hasInterface` is not among the sources). -/
def hasInterface (s : PhysicalNetwork) (interface : String) : Bool :=
  s.interfaces.contains interface

/-- `PhysicalNetwork::getPermission`. -/
def getPermission (s : PhysicalNetwork) : Permission :=
  s.permission

/-- `std::set::insert` on the interface set: add the name if absent. -/
def insertInterface (l : List String) (interface : String) : List String :=
  if l.contains interface then l else l ++ [interface]

/-- The anonymous-namespace helper `addToDefault`: RouteController
registration of the interface with the default network, then the delegate's
`addFallthrough`; fail-fast, returning the pair (result, calls made). -/
def addToDefault (o : Oracle) (netId : Nat) (interface : String)
    (permission : Permission) : Int × List Event :=
  let e1 := Event.rcAddInterfaceToDefaultNetwork interface permission
  let r1 := o.call e1
  if r1 ≠ 0 then (r1, [e1])
  else
    let e2 := Event.delegateAddFallthrough interface permission
    let r2 := o.call e2
    if r2 ≠ 0 then (r2, [e1, e2]) else (0, [e1, e2])

/-- The anonymous-namespace helper `removeFromDefault`: RouteController
deregistration, then the delegate's `removeFallthrough`; fail-fast. -/
def removeFromDefault (o : Oracle) (netId : Nat) (interface : String)
    (permission : Permission) : Int × List Event :=
  let e1 := Event.rcRemoveInterfaceFromDefaultNetwork interface permission
  let r1 := o.call e1
  if r1 ≠ 0 then (r1, [e1])
  else
    let e2 := Event.delegateRemoveFallthrough interface permission
    let r2 := o.call e2
    if r2 ≠ 0 then (r2, [e1, e2]) else (0, [e1, e2])

/-- `PhysicalNetwork::destroySocketsLackingPermission`: immediate success
for `PERMISSION_NONE`; `-EBADFD` if the SockDiag facility cannot be opened;
otherwise the facility's own result for the destroy call. -/
def destroySocketsLackingPermission (o : Oracle) (netId : Nat)
    (permission : Permission) : Int × List Event :=
  if permission = Permission.PERMISSION_NONE then (0, [])
  else if !o.sdOpenOk then (-EBADFD, [Event.sdOpen])
  else
    let e := Event.sdDestroySocketsLackingPermission netId permission true
    let r := o.call e
    if r ≠ 0 then (r, [Event.sdOpen, e]) else (0, [Event.sdOpen, e])

/-- `PhysicalNetwork::invalidateRouteCache`: for each of the IPv4 and IPv6
default prefixes, add then remove a priority-100000 "throw" route on the
interface table; every result is discarded, so only the calls are recorded. -/
def invalidateRouteCache (interface : String) : List Event :=
  [Event.rcAddRoute interface "0.0.0.0/0" "throw" "INTERFACE" 0 100000,
   Event.rcRemoveRoute interface "0.0.0.0/0" "throw" "INTERFACE" 100000,
   Event.rcAddRoute interface "::/0" "throw" "INTERFACE" 0 100000,
   Event.rcRemoveRoute interface "::/0" "throw" "INTERFACE" 100000]

/-- The first per-interface loop of `setPermission`:
`RouteController::modifyPhysicalNetworkPermission` for each interface,
aborting on the first failure, followed on success by the (result-ignored)
route-cache invalidation calls for that interface. -/
def modifyPermissionLoop (o : Oracle) (netId : Nat)
    (oldPermission newPermission : Permission) (isLocal : Bool) :
    List String → Int × List Event
  | [] => (0, [])
  | interface :: rest =>
    let e := Event.rcModifyPhysicalNetworkPermission netId interface
      oldPermission newPermission isLocal
    let r := o.call e
    if r ≠ 0 then (r, [e])
    else
      let res := modifyPermissionLoop o netId oldPermission newPermission isLocal rest
      (res.1, e :: (invalidateRouteCache interface ++ res.2))

/-- The second per-interface loop of `setPermission`, run only when the
network is default: `addToDefault` under the new permission, then
`removeFromDefault` under the old permission, fail-fast. -/
def permissionDefaultLoop (o : Oracle) (netId : Nat)
    (oldPermission newPermission : Permission) : List String → Int × List Event
  | [] => (0, [])
  | interface :: rest =>
    let a := addToDefault o netId interface newPermission
    if a.1 ≠ 0 then a
    else
      let b := removeFromDefault o netId interface oldPermission
      if b.1 ≠ 0 then (b.1, a.2 ++ b.2)
      else
        let res := permissionDefaultLoop o netId oldPermission newPermission rest
        (res.1, a.2 ++ (b.2 ++ res.2))

/-- `PhysicalNetwork::setPermission`, translated clause by clause: no-op on
equal permission; direct update when no interface is attached; otherwise a
(result-ignored) pre-emptive socket closure, the modify loop, the
default-network re-registration loop when applicable, a second
(result-ignored) socket closure, and only then the field update. -/
def setPermission (o : Oracle) (s : PhysicalNetwork) (permission : Permission) :
    Outcome :=
  if permission = s.permission then ⟨0, s, []⟩
  else if s.interfaces = [] then ⟨0, { s with permission := permission }, []⟩
  else
    let t0 := (destroySocketsLackingPermission o s.netId permission).2
    let m := modifyPermissionLoop o s.netId s.permission permission
      s.isLocalNetwork s.interfaces
    if m.1 ≠ 0 then ⟨m.1, s, t0 ++ m.2⟩
    else
      let d :=
        if s.isDefault then
          permissionDefaultLoop o s.netId s.permission permission s.interfaces
        else (0, [])
      if d.1 ≠ 0 then ⟨d.1, s, t0 ++ (m.2 ++ d.2)⟩
      else
        let t3 := (destroySocketsLackingPermission o s.netId permission).2
        ⟨0, { s with permission := permission }, t0 ++ (m.2 ++ (d.2 ++ t3))⟩

/-- The per-interface loop of `addAsDefault`. -/
def addAsDefaultLoop (o : Oracle) (netId : Nat) (permission : Permission) :
    List String → Int × List Event
  | [] => (0, [])
  | interface :: rest =>
    let a := addToDefault o netId interface permission
    if a.1 ≠ 0 then a
    else
      let res := addAsDefaultLoop o netId permission rest
      (res.1, a.2 ++ res.2)

/-- The per-interface loop of `removeAsDefault`. -/
def removeAsDefaultLoop (o : Oracle) (netId : Nat) (permission : Permission) :
    List String → Int × List Event
  | [] => (0, [])
  | interface :: rest =>
    let a := removeFromDefault o netId interface permission
    if a.1 ≠ 0 then a
    else
      let res := removeAsDefaultLoop o netId permission rest
      (res.1, a.2 ++ res.2)

/-- `PhysicalNetwork::addAsDefault`: no-op when already default; otherwise
register every interface (fail-fast) and only on full success set the flag. -/
def addAsDefault (o : Oracle) (s : PhysicalNetwork) : Outcome :=
  if s.isDefault then ⟨0, s, []⟩
  else
    let res := addAsDefaultLoop o s.netId s.permission s.interfaces
    if res.1 ≠ 0 then ⟨res.1, s, res.2⟩
    else ⟨0, { s with isDefault := true }, res.2⟩

/-- `PhysicalNetwork::removeAsDefault`: symmetric to `addAsDefault`. -/
def removeAsDefault (o : Oracle) (s : PhysicalNetwork) : Outcome :=
  if !s.isDefault then ⟨0, s, []⟩
  else
    let res := removeAsDefaultLoop o s.netId s.permission s.interfaces
    if res.1 ≠ 0 then ⟨res.1, s, res.2⟩
    else ⟨0, { s with isDefault := false }, res.2⟩

/-- `PhysicalNetwork::isValidSubPriority`: inside the closed
highest..lowest range, or equal to the no-default sentinel. -/
def isValidSubPriority (priority : Int) : Bool :=
  decide ((SUB_PRIORITY_HIGHEST ≤ priority ∧ priority ≤ SUB_PRIORITY_LOWEST) ∨
    priority = SUB_PRIORITY_NO_DEFAULT)

/-- Modelled from the spec: `Network::addToUidRangeMap` is not among the
sources; "addUsers inserts/merges the ranges under that sub-priority". -/
def addToUidRangeMap (m : UidRangeMap) (uidRanges : UidRanges)
    (subPriority : Int) : UidRangeMap :=
  match m with
  | [] => [(subPriority, uidRanges)]
  | (k, v) :: rest =>
    if k = subPriority then (k, v ++ uidRanges) :: rest
    else (k, v) :: addToUidRangeMap rest uidRanges subPriority

/-- Modelled from the spec: `Network::removeFromUidRangeMap` is not among
the sources; "removeUsers removes the ranges, dropping the sub-priority
entry entirely if it becomes empty". -/
def removeFromUidRangeMap (m : UidRangeMap) (uidRanges : UidRanges)
    (subPriority : Int) : UidRangeMap :=
  match m with
  | [] => []
  | (k, v) :: rest =>
    if k = subPriority then
      let kept := v.filter (fun x => !(uidRanges.contains x))
      if kept = [] then rest else (k, kept) :: rest
    else (k, v) :: removeFromUidRangeMap rest uidRanges subPriority

/-- The `RouteController::addUsersToPhysicalNetwork` invocation made for one
interface during `addUsers` (netId, interface, the singleton map
`{{subPriority, uidRanges}}`, locality). -/
def addUsersEvt (s : PhysicalNetwork) (subPriority : Int) (uidRanges : UidRanges)
    (interface : String) : Event :=
  Event.rcAddUsersToPhysicalNetwork s.netId interface subPriority uidRanges
    s.isLocalNetwork

/-- The `RouteController::removeUsersFromPhysicalNetwork` invocation made for
one interface during `removeUsers`. -/
def removeUsersEvt (s : PhysicalNetwork) (subPriority : Int) (uidRanges : UidRanges)
    (interface : String) : Event :=
  Event.rcRemoveUsersFromPhysicalNetwork s.netId interface subPriority uidRanges
    s.isLocalNetwork

/-- The shared shape of the per-interface loops of `addUsers` and
`removeUsers`: one collaborator call per interface, abort on first failure. -/
def usersCallLoop (o : Oracle) (mk : String → Event) :
    List String → Int × List Event
  | [] => (0, [])
  | interface :: rest =>
    let e := mk interface
    let r := o.call e
    if r ≠ 0 then (r, [e])
    else
      let res := usersCallLoop o mk rest
      (res.1, e :: res.2)

/-- `PhysicalNetwork::addUsers`. The base-class addability check
`canAddUidRanges` is not among the sources and, following the spec (its
rejection policy is a delegated, unspecified contract), is modelled as an
explicit boolean parameter. -/
def addUsers (o : Oracle) (canAddUidRanges : UidRanges → Bool)
    (s : PhysicalNetwork) (uidRanges : UidRanges) (subPriority : Int) : Outcome :=
  if !isValidSubPriority subPriority || !canAddUidRanges uidRanges then
    ⟨-EINVAL, s, []⟩
  else
    let res := usersCallLoop o (addUsersEvt s subPriority uidRanges) s.interfaces
    if res.1 ≠ 0 then ⟨res.1, s, res.2⟩
    else ⟨0, { s with uidRangeMap := addToUidRangeMap s.uidRangeMap uidRanges subPriority }, res.2⟩

/-- `PhysicalNetwork::removeUsers`. -/
def removeUsers (o : Oracle) (s : PhysicalNetwork) (uidRanges : UidRanges)
    (subPriority : Int) : Outcome :=
  if !isValidSubPriority subPriority then ⟨-EINVAL, s, []⟩
  else
    let res := usersCallLoop o (removeUsersEvt s subPriority uidRanges) s.interfaces
    if res.1 ≠ 0 then ⟨res.1, s, res.2⟩
    else ⟨0, { s with uidRangeMap := removeFromUidRangeMap s.uidRangeMap uidRanges subPriority }, res.2⟩

/-- `PhysicalNetwork::addInterface`: no-op when present; RouteController
registration, then (when default) the fallthrough registration; only after
both succeed is the name inserted. -/
def addInterface (o : Oracle) (s : PhysicalNetwork) (interface : String) : Outcome :=
  if hasInterface s interface then ⟨0, s, []⟩
  else
    let e := Event.rcAddInterfaceToPhysicalNetwork s.netId interface s.permission
      s.uidRangeMap s.isLocalNetwork
    let r := o.call e
    if r ≠ 0 then ⟨r, s, [e]⟩
    else
      let a :=
        if s.isDefault then addToDefault o s.netId interface s.permission
        else (0, [])
      if a.1 ≠ 0 then ⟨a.1, s, e :: a.2⟩
      else ⟨0, { s with interfaces := insertInterface s.interfaces interface }, e :: a.2⟩

/-- `PhysicalNetwork::removeInterface`: no-op when absent; when default,
first the fallthrough removal, and only then the RouteController removal
(which also evicts the interface-index cache); only on success is the name
erased. -/
def removeInterface (o : Oracle) (s : PhysicalNetwork) (interface : String) : Outcome :=
  if !hasInterface s interface then ⟨0, s, []⟩
  else
    let a :=
      if s.isDefault then removeFromDefault o s.netId interface s.permission
      else (0, [])
    if a.1 ≠ 0 then ⟨a.1, s, a.2⟩
    else
      let e := Event.rcRemoveInterfaceFromPhysicalNetwork s.netId interface
        s.permission s.uidRangeMap s.isLocalNetwork
      let r2 := o.call e
      if r2 ≠ 0 then ⟨r2, s, a.2 ++ [e]⟩
      else ⟨0, { s with interfaces := s.interfaces.erase interface }, a.2 ++ [e]⟩

end PhysicalNetwork

/-- Events belonging to the socket-diagnostics collaborator. -/
def isSockDiagEvt : Event → Bool
  | Event.sdOpen => true
  | Event.sdDestroySocketsLackingPermission _ _ _ => true
  | _ => false

/-- Events whose results the manager acts on (everything except the
best-effort route-cache invalidation calls and the socket-diagnostics
calls, whose failures are ignored by design). -/
def isCriticalEvt : Event → Bool
  | Event.rcAddRoute _ _ _ _ _ _ => false
  | Event.rcRemoveRoute _ _ _ _ _ => false
  | Event.sdOpen => false
  | Event.sdDestroySocketsLackingPermission _ _ _ => false
  | _ => true

/-- Calls made on the fallthrough delegate. -/
def isDelegateCall : Event → Bool
  | Event.delegateAddFallthrough _ _ => true
  | Event.delegateRemoveFallthrough _ _ => true
  | _ => false

/-- Whether a recorded collaborator invocation succeeded under oracle `o`. -/
def eventSucceeded (o : Oracle) : Event → Bool
  | Event.sdOpen => o.sdOpenOk
  | e => decide (o.call e = 0)

/-- The default-network registration events for one interface at one
permission (RouteController registration or delegate fallthrough add). -/
def isDefaultRegistration (interface : String) (p : Permission) : Event → Bool
  | Event.rcAddInterfaceToDefaultNetwork j q => decide (j = interface ∧ q = p)
  | Event.delegateAddFallthrough j q => decide (j = interface ∧ q = p)
  | _ => false

/-- The default-network deregistration events for one interface at one
permission. -/
def isDefaultDeregistration (interface : String) (p : Permission) : Event → Bool
  | Event.rcRemoveInterfaceFromDefaultNetwork j q => decide (j = interface ∧ q = p)
  | Event.delegateRemoveFallthrough j q => decide (j = interface ∧ q = p)
  | _ => false

/-- The RouteController physical-network removal event for one interface
(the call that also evicts the interface-index cache). -/
def isPhysRemoval (interface : String) : Event → Bool
  | Event.rcRemoveInterfaceFromPhysicalNetwork _ j _ _ _ => decide (j = interface)
  | _ => false

/-- In a trace, no `isRemove` event occurs before the first `isAdd` event:
walking the trace, an `isRemove` event seen before any `isAdd` event
falsifies the property, while reaching an `isAdd` event (or the end)
establishes it. -/
def addObservedFirst (isAdd isRemove : Event → Bool) : List Event → Bool
  | [] => true
  | e :: rest =>
    if isRemove e then false
    else if isAdd e then true
    else addObservedFirst isAdd isRemove rest

/-- Concrete oracle: every collaborator call succeeds. -/
def oAllOk : Oracle := ⟨fun _ => 0, true⟩

/-- Concrete oracle: every RouteController/delegate call succeeds but the
socket-diagnostics facility cannot be opened. -/
def oDiagFail : Oracle := ⟨fun _ => 0, false⟩

/-- Concrete oracle: every collaborator call fails with -1. -/
def oAllFail : Oracle := ⟨fun _ => -1, true⟩

/-- Concrete state: netId 1, permission NONE, not default, non-local, one
attached interface "eth0", empty UID-range map. -/
def sEth : PhysicalNetwork :=
  ⟨1, Permission.PERMISSION_NONE, false, false, ["eth0"], []⟩

/-- Concrete state: like `sEth` but currently the default network. -/
def sEthDefault : PhysicalNetwork :=
  ⟨1, Permission.PERMISSION_NONE, true, false, ["eth0"], []⟩

/-- Concrete addability check that rejects every UID-range set. -/
def canAddNone : UidRanges → Bool := fun _ => false

/-- Concrete addability check that accepts every UID-range set. -/
def canAddAll : UidRanges → Bool := fun _ => true

open PhysicalNetwork

theorem invalidate_events {interface : String} {e : Event}
    (h : e ∈ invalidateRouteCache interface) :
    isSockDiagEvt e = false ∧ isCriticalEvt e = false ∧
    (∀ j q, isDefaultRegistration j q e = false) ∧
    (∀ j q, isDefaultDeregistration j q e = false) := by
  simp only [invalidateRouteCache, List.mem_cons, List.not_mem_nil, or_false] at h
  rcases h with rfl | rfl | rfl | rfl <;>
    exact ⟨rfl, rfl, fun _ _ => rfl, fun _ _ => rfl⟩

theorem addToDefault_trace_cases (o : Oracle) (n : Nat) (i : String) (p : Permission) :
    (addToDefault o n i p).2 = [Event.rcAddInterfaceToDefaultNetwork i p] ∨
    (addToDefault o n i p).2 =
      [Event.rcAddInterfaceToDefaultNetwork i p, Event.delegateAddFallthrough i p] := by
  simp only [addToDefault]
  split
  · exact Or.inl rfl
  · split
    · exact Or.inr rfl
    · exact Or.inr rfl

theorem removeFromDefault_trace_cases (o : Oracle) (n : Nat) (i : String) (p : Permission) :
    (removeFromDefault o n i p).2 = [Event.rcRemoveInterfaceFromDefaultNetwork i p] ∨
    (removeFromDefault o n i p).2 =
      [Event.rcRemoveInterfaceFromDefaultNetwork i p, Event.delegateRemoveFallthrough i p] := by
  simp only [removeFromDefault]
  split
  · exact Or.inl rfl
  · split
    · exact Or.inr rfl
    · exact Or.inr rfl

theorem mem_addToDefault_trace {o : Oracle} {n : Nat} {i : String} {p : Permission}
    {e : Event} (h : e ∈ (addToDefault o n i p).2) :
    e = Event.rcAddInterfaceToDefaultNetwork i p ∨
    e = Event.delegateAddFallthrough i p := by
  rcases addToDefault_trace_cases o n i p with hc | hc <;> rw [hc] at h <;>
    simp only [List.mem_cons, List.not_mem_nil, or_false] at h <;> tauto

theorem mem_removeFromDefault_trace {o : Oracle} {n : Nat} {i : String} {p : Permission}
    {e : Event} (h : e ∈ (removeFromDefault o n i p).2) :
    e = Event.rcRemoveInterfaceFromDefaultNetwork i p ∨
    e = Event.delegateRemoveFallthrough i p := by
  rcases removeFromDefault_trace_cases o n i p with hc | hc <;> rw [hc] at h <;>
    simp only [List.mem_cons, List.not_mem_nil, or_false] at h <;> tauto

theorem destroy_trace_sockdiag {o : Oracle} {n : Nat} {p : Permission} {e : Event}
    (h : e ∈ (destroySocketsLackingPermission o n p).2) :
    isSockDiagEvt e = true := by
  simp only [destroySocketsLackingPermission] at h
  split at h
  · simp at h
  · split at h
    · simp only [List.mem_cons, List.not_mem_nil, or_false] at h
      subst h; rfl
    · split at h <;>
        (simp only [List.mem_cons, List.not_mem_nil, or_false] at h;
         rcases h with rfl | rfl <;> rfl)

theorem sockdiag_not_other {e : Event} (h : isSockDiagEvt e = true) :
    isCriticalEvt e = false ∧
    (∀ j q, isDefaultRegistration j q e = false ∧ isDefaultDeregistration j q e = false) := by
  cases e <;>
    first
      | exact ⟨rfl, fun _ _ => ⟨rfl, rfl⟩⟩
      | exact absurd h (by simp [isSockDiagEvt])

theorem modifyLoop_events {o : Oracle} {n : Nat} {po pn : Permission} {lo : Bool} :
    ∀ (l : List String) (e : Event), e ∈ (modifyPermissionLoop o n po pn lo l).2 →
      isSockDiagEvt e = false ∧
      (∀ j q, isDefaultRegistration j q e = false) ∧
      (∀ j q, isDefaultDeregistration j q e = false) := by
  intro l
  induction l with
  | nil => intro e h; simp [modifyPermissionLoop] at h
  | cons i rest ih =>
    intro e h
    simp only [modifyPermissionLoop] at h
    split at h
    · simp only [List.mem_cons, List.not_mem_nil, or_false] at h
      subst h; exact ⟨rfl, fun _ _ => rfl, fun _ _ => rfl⟩
    · simp only [List.mem_cons, List.mem_append] at h
      rcases h with rfl | h | h
      · exact ⟨rfl, fun _ _ => rfl, fun _ _ => rfl⟩
      · exact ⟨(invalidate_events h).1, (invalidate_events h).2.2.1,
          (invalidate_events h).2.2.2⟩
      · exact ih e h

theorem permissionDefaultLoop_no_sockdiag {o : Oracle} {n : Nat} {po pn : Permission} :
    ∀ (l : List String) (e : Event), e ∈ (permissionDefaultLoop o n po pn l).2 →
      isSockDiagEvt e = false := by
  intro l
  induction l with
  | nil => intro e h; simp [permissionDefaultLoop] at h
  | cons i rest ih =>
    intro e h
    simp only [permissionDefaultLoop] at h
    split at h
    · rcases mem_addToDefault_trace h with rfl | rfl <;> rfl
    · split at h
      · rcases List.mem_append.1 h with h | h
        · rcases mem_addToDefault_trace h with rfl | rfl <;> rfl
        · rcases mem_removeFromDefault_trace h with rfl | rfl <;> rfl
      · rcases List.mem_append.1 h with h | h
        · rcases mem_addToDefault_trace h with rfl | rfl <;> rfl
        · rcases List.mem_append.1 h with h | h
          · rcases mem_removeFromDefault_trace h with rfl | rfl <;> rfl
          · exact ih e h

theorem setPermission_spec (o : Oracle) (s : PhysicalNetwork) (p : Permission)
    (hne : ¬ p = s.permission) (hi : ¬ s.interfaces = []) :
    ((modifyPermissionLoop o s.netId s.permission p s.isLocalNetwork s.interfaces).1 ≠ 0 ∧
      setPermission o s p =
        ⟨(modifyPermissionLoop o s.netId s.permission p s.isLocalNetwork s.interfaces).1, s,
         (destroySocketsLackingPermission o s.netId p).2 ++
           (modifyPermissionLoop o s.netId s.permission p s.isLocalNetwork s.interfaces).2⟩) ∨
    ((modifyPermissionLoop o s.netId s.permission p s.isLocalNetwork s.interfaces).1 = 0 ∧
      (if s.isDefault then permissionDefaultLoop o s.netId s.permission p s.interfaces
        else (0, [])).1 ≠ 0 ∧
      setPermission o s p =
        ⟨(if s.isDefault then permissionDefaultLoop o s.netId s.permission p s.interfaces
            else (0, [])).1, s,
         (destroySocketsLackingPermission o s.netId p).2 ++
           ((modifyPermissionLoop o s.netId s.permission p s.isLocalNetwork s.interfaces).2 ++
            (if s.isDefault then permissionDefaultLoop o s.netId s.permission p s.interfaces
              else (0, [])).2)⟩) ∨
    ((modifyPermissionLoop o s.netId s.permission p s.isLocalNetwork s.interfaces).1 = 0 ∧
      (if s.isDefault then permissionDefaultLoop o s.netId s.permission p s.interfaces
        else (0, [])).1 = 0 ∧
      setPermission o s p =
        ⟨0, { s with permission := p },
         (destroySocketsLackingPermission o s.netId p).2 ++
           ((modifyPermissionLoop o s.netId s.permission p s.isLocalNetwork s.interfaces).2 ++
            ((if s.isDefault then permissionDefaultLoop o s.netId s.permission p s.interfaces
               else (0, [])).2 ++
             (destroySocketsLackingPermission o s.netId p).2))⟩) := by
  by_cases hm :
      (modifyPermissionLoop o s.netId s.permission p s.isLocalNetwork s.interfaces).1 = 0 <;>
    by_cases hd : (if s.isDefault then
        permissionDefaultLoop o s.netId s.permission p s.interfaces
      else (0, [])).1 = 0 <;>
    simp [setPermission, hne, hi, hm, hd]

theorem defaultBranch_no_sockdiag {o : Oracle} {n : Nat} {po pn : Permission}
    {l : List String} {b : Bool} :
    ∀ e ∈ (if b then permissionDefaultLoop o n po pn l else ((0 : Int), ([] : List Event))).2,
      isSockDiagEvt e = false := by
  intro e he
  by_cases hb : b = true
  · rw [if_pos hb] at he
    exact permissionDefaultLoop_no_sockdiag _ e he
  · rw [if_neg hb] at he
    simp at he

/-- C10: whenever the target permission is `PERMISSION_NONE`,
`destroySocketsLackingPermission` returns success immediately with no
socket-diagnostics call, and a `setPermission` call whose target is
`PERMISSION_NONE` never records a socket-diagnostics event in either
closure pass. -/
theorem setPermission_none_no_sockdiag (o : Oracle) (netId : Nat) (s : PhysicalNetwork) :
    destroySocketsLackingPermission o netId Permission.PERMISSION_NONE = (0, []) ∧
    ((setPermission o s Permission.PERMISSION_NONE).trace.all
      (fun e => !isSockDiagEvt e)) = true := by
  refine ⟨rfl, ?_⟩
  rw [List.all_eq_true]
  intro e he
  rw [Bool.not_eq_true']
  by_cases hp : Permission.PERMISSION_NONE = s.permission
  · simp [setPermission, hp] at he
  · by_cases hi : s.interfaces = []
    · simp [setPermission, hp, hi] at he
    · have hdz : (destroySocketsLackingPermission o s.netId Permission.PERMISSION_NONE).2 = [] := rfl
      rcases setPermission_spec o s Permission.PERMISSION_NONE hp hi with
        ⟨_, hq⟩ | ⟨_, _, hq⟩ | ⟨_, _, hq⟩ <;>
        rw [hq] at he <;>
        simp only [Outcome.mk.injEq, hdz, List.nil_append, List.append_nil,
          List.mem_append] at he
      · exact (modifyLoop_events _ e he).1
      · rcases he with h | h
        · exact (modifyLoop_events _ e h).1
        · exact defaultBranch_no_sockdiag e h
      · rcases he with h | h
        · exact (modifyLoop_events _ e h).1
        · exact defaultBranch_no_sockdiag e h

/-- C9: `setPermission` with the current permission, `addAsDefault` when
already default, `removeAsDefault` when not default, `addInterface` with a
present name and `removeInterface` with an absent name all return success,
invoke no collaborator, and leave the state unchanged. -/
theorem noop_idempotence (o : Oracle) (s : PhysicalNetwork) (p : Permission)
    (interface : String) :
    (p = s.permission → setPermission o s p = ⟨0, s, []⟩) ∧
    (s.isDefault = true → addAsDefault o s = ⟨0, s, []⟩) ∧
    (s.isDefault = false → removeAsDefault o s = ⟨0, s, []⟩) ∧
    (hasInterface s interface = true → addInterface o s interface = ⟨0, s, []⟩) ∧
    (hasInterface s interface = false → removeInterface o s interface = ⟨0, s, []⟩) := by
  refine ⟨?_, ?_, ?_, ?_, ?_⟩ <;> intro h <;>
    simp [setPermission, addAsDefault, removeAsDefault, addInterface, removeInterface, h]

/-- C9 witness: the five no-ops at concrete inputs. -/
theorem noop_idempotence_witness :
    setPermission oAllOk sEth Permission.PERMISSION_NONE = ⟨0, sEth, []⟩ ∧
    addAsDefault oAllOk sEthDefault = ⟨0, sEthDefault, []⟩ ∧
    removeAsDefault oAllOk sEth = ⟨0, sEth, []⟩ ∧
    addInterface oAllOk sEth "eth0" = ⟨0, sEth, []⟩ ∧
    removeInterface oAllOk sEth "wlan0" = ⟨0, sEth, []⟩ :=
  ⟨(noop_idempotence oAllOk sEth Permission.PERMISSION_NONE "eth0").1 rfl,
   (noop_idempotence oAllOk sEthDefault Permission.PERMISSION_NONE "eth0").2.1 rfl,
   (noop_idempotence oAllOk sEth Permission.PERMISSION_NONE "eth0").2.2.1 rfl,
   (noop_idempotence oAllOk sEth Permission.PERMISSION_NONE "eth0").2.2.2.1 (by decide),
   (noop_idempotence oAllOk sEth Permission.PERMISSION_NONE "wlan0").2.2.2.2 (by decide)⟩

/-- C7: when `addInterface` fails at a collaborator step, the interface is
not inserted into the membership set, and a subsequent `removeInterface`
with the same name on the resulting state is a success no-op that invokes
no collaborator. -/
theorem addInterface_failure_no_insert (o o2 : Oracle) (s : PhysicalNetwork)
    (interface : String) (hfail : (addInterface o s interface).ret ≠ 0) :
    (addInterface o s interface).st = s ∧
    hasInterface (addInterface o s interface).st interface = false ∧
    removeInterface o2 (addInterface o s interface).st interface =
      ⟨0, (addInterface o s interface).st, []⟩ := by
  have hmem : hasInterface s interface = false := by
    by_cases hcase : hasInterface s interface = true
    · exact absurd (by simp [addInterface, hcase] : (addInterface o s interface).ret = 0) hfail
    · simpa using hcase
  have hst : (addInterface o s interface).st = s := by
    by_cases h1 : o.call (Event.rcAddInterfaceToPhysicalNetwork s.netId interface
        s.permission s.uidRangeMap s.isLocalNetwork) = 0 <;>
      by_cases hd : s.isDefault = true <;>
      by_cases h2 : (addToDefault o s.netId interface s.permission).1 = 0 <;>
      simp_all [addInterface, hmem]
  refine ⟨hst, ?_, ?_⟩
  · rw [hst]; exact hmem
  · rw [hst]; simp [removeInterface, hmem]

theorem addObservedFirst_of_no_remove {isAdd isRemove : Event → Bool} :
    ∀ (l : List Event), (∀ e ∈ l, isRemove e = false) →
      addObservedFirst isAdd isRemove l = true := by
  intro l
  induction l with
  | nil => intro _; rfl
  | cons e rest ih =>
    intro h
    have h0 : isRemove e = false := h e (List.mem_cons_self e rest)
    by_cases ha : isAdd e = true
    · simp [addObservedFirst, h0, ha]
    · simp only [addObservedFirst, h0, ha, Bool.false_eq_true, if_false]
      exact ih (fun e2 he2 => h e2 (List.mem_cons_of_mem _ he2))

theorem addObservedFirst_append_of_no_events {isAdd isRemove : Event → Bool}
    (l1 l2 : List Event) (h : ∀ e ∈ l1, isRemove e = false ∧ isAdd e = false) :
    addObservedFirst isAdd isRemove (l1 ++ l2) = addObservedFirst isAdd isRemove l2 := by
  induction l1 with
  | nil => simp
  | cons e rest ih =>
    have h0 := h e (List.mem_cons_self e rest)
    simp only [List.cons_append, addObservedFirst, h0.1, h0.2, Bool.false_eq_true, if_false]
    exact ih (fun e2 he2 => h e2 (List.mem_cons_of_mem _ he2))

theorem addObservedFirst_append_no_remove_right {isAdd isRemove : Event → Bool}
    (l1 l2 : List Event) (h1 : addObservedFirst isAdd isRemove l1 = true)
    (h2 : ∀ e ∈ l2, isRemove e = false) :
    addObservedFirst isAdd isRemove (l1 ++ l2) = true := by
  induction l1 with
  | nil => simpa using addObservedFirst_of_no_remove l2 h2
  | cons e rest ih =>
    simp only [addObservedFirst, List.cons_append] at h1 ⊢
    by_cases hr : isRemove e = true
    · rw [if_pos hr] at h1
      exact absurd h1 (by simp)
    · have hr2 : isRemove e = false := by simpa using hr
      by_cases ha : isAdd e = true
      · simp [hr2, ha]
      · simp only [hr2, ha, Bool.false_eq_true, if_false] at h1 ⊢
        exact ih h1

theorem permissionDefaultLoop_order {o : Oracle} {n : Nat} {po pn : Permission}
    (i : String) :
    ∀ l, addObservedFirst (isDefaultRegistration i pn) (isDefaultDeregistration i po)
      (permissionDefaultLoop o n po pn l).2 = true := by
  intro l
  induction l with
  | nil => rfl
  | cons j rest ih =>
    simp only [permissionDefaultLoop]
    by_cases hji : j = i
    · subst hji
      rcases addToDefault_trace_cases o n j pn with hc | hc <;>
        by_cases h1 : (addToDefault o n j pn).1 = 0 <;>
        by_cases h2 : (removeFromDefault o n j po).1 = 0 <;>
        simp [hc, h1, h2, addObservedFirst, isDefaultRegistration, isDefaultDeregistration]
    · have haev : ∀ e ∈ (addToDefault o n j pn).2,
          isDefaultDeregistration i po e = false ∧ isDefaultRegistration i pn e = false := by
        intro e he
        rcases mem_addToDefault_trace he with rfl | rfl <;>
          simp [isDefaultDeregistration, isDefaultRegistration, hji]
      have hbev : ∀ e ∈ (removeFromDefault o n j po).2,
          isDefaultDeregistration i po e = false ∧ isDefaultRegistration i pn e = false := by
        intro e he
        rcases mem_removeFromDefault_trace he with rfl | rfl <;>
          simp [isDefaultDeregistration, isDefaultRegistration, hji]
      by_cases h1 : (addToDefault o n j pn).1 = 0 <;>
        by_cases h2 : (removeFromDefault o n j po).1 = 0
      · rw [if_neg (by simp [h1]), if_neg (by simp [h2])]
        rw [addObservedFirst_append_of_no_events _ _ haev,
          addObservedFirst_append_of_no_events _ _ hbev]
        exact ih
      · rw [if_neg (by simp [h1]), if_pos (by simp [h2])]
        rw [addObservedFirst_append_of_no_events _ _ haev]
        exact addObservedFirst_of_no_remove _ (fun e he => (hbev e he).1)
      · rw [if_pos (by simp [h1])]
        exact addObservedFirst_of_no_remove _ (fun e he => (haev e he).1)
      · rw [if_pos (by simp [h1])]
        exact addObservedFirst_of_no_remove _ (fun e he => (haev e he).1)

/-- C3: during `setPermission` on a network that is currently the default,
for each interface the default-network/fallthrough registration under the
new permission is observed strictly before the deregistration under the old
permission: no deregistration event for an interface occurs in the trace
before that interface's first registration event. -/
theorem setPermission_add_then_remove (o : Oracle) (s : PhysicalNetwork)
    (p : Permission) (hd : s.isDefault = true) (i : String) :
    addObservedFirst (isDefaultRegistration i p) (isDefaultDeregistration i s.permission)
      (setPermission o s p).trace = true := by
  by_cases hp : p = s.permission
  · simp [setPermission, hp, addObservedFirst]
  · by_cases hi : s.interfaces = []
    · simp [setPermission, hp, hi, addObservedFirst]
    · have ht0 : ∀ e ∈ (destroySocketsLackingPermission o s.netId p).2,
          isDefaultDeregistration i s.permission e = false ∧
          isDefaultRegistration i p e = false := by
        intro e he
        have hsd := sockdiag_not_other (destroy_trace_sockdiag he)
        exact ⟨(hsd.2 i s.permission).2, (hsd.2 i p).1⟩
      have ht1 : ∀ e ∈ (modifyPermissionLoop o s.netId s.permission p
          s.isLocalNetwork s.interfaces).2,
          isDefaultDeregistration i s.permission e = false ∧
          isDefaultRegistration i p e = false := by
        intro e he
        exact ⟨(modifyLoop_events _ e he).2.2 i s.permission,
          (modifyLoop_events _ e he).2.1 i p⟩
      rcases setPermission_spec o s p hp hi with ⟨_, hq⟩ | ⟨_, _, hq⟩ | ⟨_, _, hq⟩ <;>
        rw [hq] <;> simp only []
      · exact addObservedFirst_of_no_remove _ (by
          intro e he
          rcases List.mem_append.1 he with h | h
          · exact (ht0 e h).1
          · exact (ht1 e h).1)
      · rw [addObservedFirst_append_of_no_events _ _ ht0,
          addObservedFirst_append_of_no_events _ _ ht1, if_pos hd]
        exact permissionDefaultLoop_order i s.interfaces
      · rw [addObservedFirst_append_of_no_events _ _ ht0,
          addObservedFirst_append_of_no_events _ _ ht1]
        refine addObservedFirst_append_no_remove_right _ _ ?_ ?_
        · rw [if_pos hd]
          exact permissionDefaultLoop_order i s.interfaces
        · intro e he
          exact (sockdiag_not_other (destroy_trace_sockdiag he)).2 i s.permission |>.2

/-- C3 witness: a concrete default network with one interface. -/
theorem setPermission_add_then_remove_witness :
    addObservedFirst (isDefaultRegistration "eth0" Permission.PERMISSION_SYSTEM)
      (isDefaultDeregistration "eth0" Permission.PERMISSION_NONE)
      (setPermission oAllOk sEthDefault Permission.PERMISSION_SYSTEM).trace = true :=
  setPermission_add_then_remove oAllOk sEthDefault Permission.PERMISSION_SYSTEM rfl "eth0"

/-- C4: for `removeInterface` on a default network with the interface
attached, on success the trace is exactly the two fallthrough-removal
calls followed by the physical-network removal (so the fallthrough removal
precedes the physical removal), the name is erased from the membership set;
on any collaborator failure the state (including the membership set) is
unchanged, and the physical removal is never observed before the
fallthrough removal. -/
theorem removeInterface_fallthrough_first (o : Oracle) (s : PhysicalNetwork)
    (interface : String) (hd : s.isDefault = true)
    (hin : hasInterface s interface = true) :
    ((removeInterface o s interface).ret = 0 →
      (removeInterface o s interface).st =
        { s with interfaces := s.interfaces.erase interface } ∧
      (removeInterface o s interface).trace =
        [Event.rcRemoveInterfaceFromDefaultNetwork interface s.permission,
         Event.delegateRemoveFallthrough interface s.permission,
         Event.rcRemoveInterfaceFromPhysicalNetwork s.netId interface s.permission
           s.uidRangeMap s.isLocalNetwork]) ∧
    ((removeInterface o s interface).ret ≠ 0 →
      (removeInterface o s interface).st = s) ∧
    addObservedFirst (isDefaultDeregistration interface s.permission)
      (isPhysRemoval interface) (removeInterface o s interface).trace = true := by
  by_cases h1 : o.call (Event.rcRemoveInterfaceFromDefaultNetwork interface s.permission) = 0 <;>
    by_cases h2 : o.call (Event.delegateRemoveFallthrough interface s.permission) = 0 <;>
    by_cases h3 : o.call (Event.rcRemoveInterfaceFromPhysicalNetwork s.netId interface
      s.permission s.uidRangeMap s.isLocalNetwork) = 0 <;>
    simp_all [removeInterface, removeFromDefault, hd, hin, addObservedFirst,
      isDefaultDeregistration, isPhysRemoval]

/-- C4 witness: concrete default network, all collaborator calls succeed. -/
theorem removeInterface_fallthrough_first_witness :
    (removeInterface oAllOk sEthDefault "eth0").st =
      { sEthDefault with interfaces := sEthDefault.interfaces.erase "eth0" } ∧
    (removeInterface oAllOk sEthDefault "eth0").trace =
      [Event.rcRemoveInterfaceFromDefaultNetwork "eth0" Permission.PERMISSION_NONE,
       Event.delegateRemoveFallthrough "eth0" Permission.PERMISSION_NONE,
       Event.rcRemoveInterfaceFromPhysicalNetwork 1 "eth0" Permission.PERMISSION_NONE
         [] false] :=
  (removeInterface_fallthrough_first oAllOk sEthDefault "eth0" rfl (by decide)).1 (by decide)

theorem addAsDefaultLoop_ok {o : Oracle} {n : Nat} {p : Permission}
    (hok : ∀ e, o.call e = 0) :
    ∀ l, addAsDefaultLoop o n p l =
      (0, (l.map (fun i => [Event.rcAddInterfaceToDefaultNetwork i p,
        Event.delegateAddFallthrough i p])).join) := by
  intro l
  induction l with
  | nil => rfl
  | cons i rest ih =>
    simp [addAsDefaultLoop, addToDefault, hok, ih]

theorem removeAsDefaultLoop_ok {o : Oracle} {n : Nat} {p : Permission}
    (hok : ∀ e, o.call e = 0) :
    ∀ l, removeAsDefaultLoop o n p l =
      (0, (l.map (fun i => [Event.rcRemoveInterfaceFromDefaultNetwork i p,
        Event.delegateRemoveFallthrough i p])).join) := by
  intro l
  induction l with
  | nil => rfl
  | cons i rest ih =>
    simp [removeAsDefaultLoop, removeFromDefault, hok, ih]

theorem filter_delegate_add (p : Permission) :
    ∀ l : List String,
      ((l.map (fun i => [Event.rcAddInterfaceToDefaultNetwork i p,
        Event.delegateAddFallthrough i p])).join).filter isDelegateCall =
      l.map (fun i => Event.delegateAddFallthrough i p) := by
  intro l
  induction l with
  | nil => rfl
  | cons i rest ih => simp [isDelegateCall, ih]

theorem filter_delegate_remove (p : Permission) :
    ∀ l : List String,
      ((l.map (fun i => [Event.rcRemoveInterfaceFromDefaultNetwork i p,
        Event.delegateRemoveFallthrough i p])).join).filter isDelegateCall =
      l.map (fun i => Event.delegateRemoveFallthrough i p) := by
  intro l
  induction l with
  | nil => rfl
  | cons i rest ih => simp [isDelegateCall, ih]

/-- C8: starting from a non-default state in which every collaborator call
succeeds, `addAsDefault` followed immediately by `removeAsDefault` succeeds,
restores the exact pre-pair state (`isDefault` back to `false`), and the
delegate sees `addFallthrough` for every attached interface (at the current
permission) followed by `removeFallthrough` for every attached interface. -/
theorem default_toggle_symmetry (o : Oracle) (s : PhysicalNetwork)
    (hd : s.isDefault = false) (hok : ∀ e, o.call e = 0) :
    (addAsDefault o s).ret = 0 ∧
    (removeAsDefault o (addAsDefault o s).st).ret = 0 ∧
    (removeAsDefault o (addAsDefault o s).st).st = s ∧
    (((addAsDefault o s).trace ++
        (removeAsDefault o (addAsDefault o s).st).trace).filter isDelegateCall) =
      s.interfaces.map (fun i => Event.delegateAddFallthrough i s.permission) ++
      s.interfaces.map (fun i => Event.delegateRemoveFallthrough i s.permission) := by
  have hse : { s with isDefault := false } = s := by
    cases s
    simp_all
  have ha : addAsDefault o s =
      ⟨0, { s with isDefault := true },
       (s.interfaces.map (fun i => [Event.rcAddInterfaceToDefaultNetwork i s.permission,
         Event.delegateAddFallthrough i s.permission])).join⟩ := by
    simp [addAsDefault, hd, addAsDefaultLoop_ok hok]
  have hr : removeAsDefault o { s with isDefault := true } =
      ⟨0, { s with isDefault := false },
       (s.interfaces.map (fun i => [Event.rcRemoveInterfaceFromDefaultNetwork i s.permission,
         Event.delegateRemoveFallthrough i s.permission])).join⟩ := by
    simp [removeAsDefault, removeAsDefaultLoop_ok hok]
  have hst : (addAsDefault o s).st = { s with isDefault := true } := by rw [ha]
  refine ⟨by rw [ha], ?_, ?_, ?_⟩
  · rw [hst, hr]
  · rw [hst, hr]
    exact hse
  · simp only [ha, hst, hr]
    rw [List.filter_append, filter_delegate_add, filter_delegate_remove]

/-- C8 witness: concrete non-default state with one interface. -/
theorem default_toggle_symmetry_witness :
    (addAsDefault oAllOk sEth).ret = 0 ∧
    (removeAsDefault oAllOk (addAsDefault oAllOk sEth).st).ret = 0 ∧
    (removeAsDefault oAllOk (addAsDefault oAllOk sEth).st).st = sEth ∧
    (((addAsDefault oAllOk sEth).trace ++
        (removeAsDefault oAllOk (addAsDefault oAllOk sEth).st).trace).filter
      isDelegateCall) =
      sEth.interfaces.map (fun i => Event.delegateAddFallthrough i sEth.permission) ++
      sEth.interfaces.map (fun i => Event.delegateRemoveFallthrough i sEth.permission) :=
  default_toggle_symmetry oAllOk sEth rfl (fun _ => rfl)

theorem usersCallLoop_ok {o : Oracle} {mk : String → Event} :
    ∀ l, (usersCallLoop o mk l).1 = 0 →
      (∀ j ∈ l, o.call (mk j) = 0) ∧ (usersCallLoop o mk l).2 = List.map mk l := by
  intro l
  induction l with
  | nil => intro _; exact ⟨by simp, rfl⟩
  | cons i rest ih =>
    intro h
    by_cases hi : o.call (mk i) = 0
    · have hstep : usersCallLoop o mk (i :: rest) =
          ((usersCallLoop o mk rest).1, mk i :: (usersCallLoop o mk rest).2) := by
        simp [usersCallLoop, hi]
      rw [hstep] at h ⊢
      obtain ⟨hall, htr⟩ := ih h
      refine ⟨?_, by simp [htr]⟩
      intro j hj
      rcases List.mem_cons.1 hj with rfl | hj2
      · exact hi
      · exact hall j hj2
    · exfalso
      have hstep : usersCallLoop o mk (i :: rest) = (o.call (mk i), [mk i]) := by
        simp [usersCallLoop, hi]
      rw [hstep] at h
      exact hi h

theorem usersCallLoop_err {o : Oracle} {mk : String → Event} :
    ∀ l, (usersCallLoop o mk l).1 ≠ 0 →
      ∃ pre i rest, l = pre ++ i :: rest ∧
        (∀ j ∈ pre, o.call (mk j) = 0) ∧
        o.call (mk i) = (usersCallLoop o mk l).1 ∧
        (usersCallLoop o mk l).2 = List.map mk pre ++ [mk i] := by
  intro l
  induction l with
  | nil => intro h; exact absurd rfl h
  | cons i rest ih =>
    intro h
    by_cases hi : o.call (mk i) = 0
    · have hstep : usersCallLoop o mk (i :: rest) =
          ((usersCallLoop o mk rest).1, mk i :: (usersCallLoop o mk rest).2) := by
        simp [usersCallLoop, hi]
      rw [hstep] at h ⊢
      obtain ⟨pre, j, rest2, hsplit, hpre, hj, htr⟩ := ih h
      refine ⟨i :: pre, j, rest2, by simp [hsplit], ?_, hj, by simp [htr]⟩
      intro j2 hj2
      rcases List.mem_cons.1 hj2 with rfl | hj3
      · exact hi
      · exact hpre j2 hj3
    · have hstep : usersCallLoop o mk (i :: rest) = (o.call (mk i), [mk i]) := by
        simp [usersCallLoop, hi]
      rw [hstep]
      exact ⟨[], i, rest, rfl, by simp, rfl, rfl⟩

/-- C5: with a valid sub-priority (and, for `addUsers`, addable ranges), the
per-interface loop of `addUsers`/`removeUsers` is fail-fast: on success the
trace is one call per attached interface and only then is `uidRangeMap`
updated; on failure the first failing call's error is returned verbatim, the
trace stops at the failing interface (all earlier calls succeeded) and the
state — in particular `uidRangeMap` — is unchanged. -/
theorem users_fail_fast (o : Oracle) (canAdd : UidRanges → Bool)
    (s : PhysicalNetwork) (uidRanges : UidRanges) (subPriority : Int)
    (hv : isValidSubPriority subPriority = true) :
    (canAdd uidRanges = true →
      ((addUsers o canAdd s uidRanges subPriority).ret = 0 →
        addUsers o canAdd s uidRanges subPriority =
          ⟨0, { s with uidRangeMap := addToUidRangeMap s.uidRangeMap uidRanges subPriority },
           s.interfaces.map (addUsersEvt s subPriority uidRanges)⟩) ∧
      ((addUsers o canAdd s uidRanges subPriority).ret ≠ 0 →
        (addUsers o canAdd s uidRanges subPriority).st = s ∧
        ∃ pre i rest, s.interfaces = pre ++ i :: rest ∧
          (∀ j ∈ pre, o.call (addUsersEvt s subPriority uidRanges j) = 0) ∧
          o.call (addUsersEvt s subPriority uidRanges i) =
            (addUsers o canAdd s uidRanges subPriority).ret ∧
          (addUsers o canAdd s uidRanges subPriority).trace =
            List.map (addUsersEvt s subPriority uidRanges) pre ++
              [addUsersEvt s subPriority uidRanges i])) ∧
    ((removeUsers o s uidRanges subPriority).ret = 0 →
      removeUsers o s uidRanges subPriority =
        ⟨0, { s with uidRangeMap := removeFromUidRangeMap s.uidRangeMap uidRanges subPriority },
         s.interfaces.map (removeUsersEvt s subPriority uidRanges)⟩) ∧
    ((removeUsers o s uidRanges subPriority).ret ≠ 0 →
      (removeUsers o s uidRanges subPriority).st = s ∧
      ∃ pre i rest, s.interfaces = pre ++ i :: rest ∧
        (∀ j ∈ pre, o.call (removeUsersEvt s subPriority uidRanges j) = 0) ∧
        o.call (removeUsersEvt s subPriority uidRanges i) =
          (removeUsers o s uidRanges subPriority).ret ∧
        (removeUsers o s uidRanges subPriority).trace =
          List.map (removeUsersEvt s subPriority uidRanges) pre ++
            [removeUsersEvt s subPriority uidRanges i]) := by
  refine ⟨fun hca => ?_, ?_, ?_⟩
  · have heq : addUsers o canAdd s uidRanges subPriority =
        (if (usersCallLoop o (addUsersEvt s subPriority uidRanges) s.interfaces).1 ≠ 0 then
          ⟨(usersCallLoop o (addUsersEvt s subPriority uidRanges) s.interfaces).1, s,
           (usersCallLoop o (addUsersEvt s subPriority uidRanges) s.interfaces).2⟩
        else
          ⟨0, { s with uidRangeMap := addToUidRangeMap s.uidRangeMap uidRanges subPriority },
           (usersCallLoop o (addUsersEvt s subPriority uidRanges) s.interfaces).2⟩) := by
      simp [addUsers, hv, hca]
    by_cases hl : (usersCallLoop o (addUsersEvt s subPriority uidRanges) s.interfaces).1 = 0
    · obtain ⟨hall, htr⟩ := usersCallLoop_ok _ hl
      rw [heq, if_neg (by simp [hl])]
      exact ⟨fun _ => by rw [htr], fun h => absurd rfl h⟩
    · obtain ⟨pre, i, rest, hsplit, hpre, hi2, htr⟩ := usersCallLoop_err _ hl
      rw [heq, if_pos hl]
      exact ⟨fun h => absurd h (by simpa using hl),
        fun _ => ⟨rfl, pre, i, rest, hsplit, hpre, hi2, htr⟩⟩
  all_goals
    have heq : removeUsers o s uidRanges subPriority =
        (if (usersCallLoop o (removeUsersEvt s subPriority uidRanges) s.interfaces).1 ≠ 0 then
          ⟨(usersCallLoop o (removeUsersEvt s subPriority uidRanges) s.interfaces).1, s,
           (usersCallLoop o (removeUsersEvt s subPriority uidRanges) s.interfaces).2⟩
        else
          ⟨0, { s with uidRangeMap := removeFromUidRangeMap s.uidRangeMap uidRanges subPriority },
           (usersCallLoop o (removeUsersEvt s subPriority uidRanges) s.interfaces).2⟩) := by
      simp [removeUsers, hv]
  all_goals
    by_cases hl : (usersCallLoop o (removeUsersEvt s subPriority uidRanges) s.interfaces).1 = 0
  · obtain ⟨hall, htr⟩ := usersCallLoop_ok _ hl
    rw [heq, if_neg (by simp [hl])]
    exact fun _ => by rw [htr]
  · rw [heq, if_pos hl]
    exact fun h => absurd h (by simpa using hl)
  · rw [heq, if_neg (by simp [hl])]
    exact fun h => absurd rfl h
  · obtain ⟨pre, i, rest, hsplit, hpre, hi2, htr⟩ := usersCallLoop_err _ hl
    rw [heq, if_pos hl]
    exact fun _ => ⟨rfl, pre, i, rest, hsplit, hpre, hi2, htr⟩

/-- C5 witness: with an all-failing oracle, `addUsers` on one interface
returns the collaborator error with the state unchanged. -/
theorem users_fail_fast_witness :
    (addUsers oAllFail canAddAll sEth [(1000, 1999)] 10).st = sEth ∧
    ∃ pre i rest, sEth.interfaces = pre ++ i :: rest ∧
      (∀ j ∈ pre, oAllFail.call (addUsersEvt sEth 10 [(1000, 1999)] j) = 0) ∧
      oAllFail.call (addUsersEvt sEth 10 [(1000, 1999)] i) =
        (addUsers oAllFail canAddAll sEth [(1000, 1999)] 10).ret ∧
      (addUsers oAllFail canAddAll sEth [(1000, 1999)] 10).trace =
        List.map (addUsersEvt sEth 10 [(1000, 1999)]) pre ++
          [addUsersEvt sEth 10 [(1000, 1999)] i] :=
  ((users_fail_fast oAllFail canAddAll sEth [(1000, 1999)] 10 (by decide)).1 rfl).2
    (by decide)

/-- C6 counterexample: `addUsers` returns `-EINVAL` with no collaborator
call and an unchanged state even for a valid sub-priority (0, the highest),
when the delegated addability check rejects the ranges — so the stated
"exactly when the sub-priority is invalid" equivalence fails. -/
theorem subPriority_validation_cex :
    isValidSubPriority 0 = true ∧
    addUsers oAllOk canAddNone sEth [(1000, 1999)] 0 = ⟨-EINVAL, sEth, []⟩ := by
  exact ⟨by decide, by decide⟩

/-- C6 (amended): `removeUsers` fails with `-EINVAL`, invokes no
collaborator and leaves the state unchanged exactly when the sub-priority is
invalid; for `addUsers` an invalid sub-priority implies that outcome, and
conversely that outcome implies the sub-priority is invalid or the UID
ranges fail the delegated addability check. Validity itself is the pure
range-or-sentinel test. -/
theorem subPriority_validation (o : Oracle) (canAdd : UidRanges → Bool)
    (s : PhysicalNetwork) (uidRanges : UidRanges) (subPriority : Int) :
    (((removeUsers o s uidRanges subPriority).ret = -EINVAL ∧
      (removeUsers o s uidRanges subPriority).trace = [] ∧
      (removeUsers o s uidRanges subPriority).st = s) ↔
        isValidSubPriority subPriority = false) ∧
    (isValidSubPriority subPriority = false →
      addUsers o canAdd s uidRanges subPriority = ⟨-EINVAL, s, []⟩) ∧
    (((addUsers o canAdd s uidRanges subPriority).ret = -EINVAL ∧
      (addUsers o canAdd s uidRanges subPriority).trace = []) →
        isValidSubPriority subPriority = false ∨ canAdd uidRanges = false) := by
  refine ⟨⟨?_, ?_⟩, ?_, ?_⟩
  · intro hLHS
    by_cases hv : isValidSubPriority subPriority = true
    · exfalso
      by_cases hl : (usersCallLoop o (removeUsersEvt s subPriority uidRanges)
          s.interfaces).1 = 0
      · have h0 := hLHS.1
        simp [removeUsers, hv, hl, EINVAL] at h0
      · obtain ⟨pre, i, rest, _, _, _, htr⟩ := usersCallLoop_err _ hl
        have h1 := hLHS.2.1
        simp [removeUsers, hv, hl] at h1
        rw [htr] at h1
        simp at h1
    · simpa using hv
  · intro hv
    simp [removeUsers, hv, Outcome.mk.injEq]
  · intro hv
    simp [addUsers, hv]
  · intro hLHS
    by_cases hv : isValidSubPriority subPriority = true
    · by_cases hca : canAdd uidRanges = true
      · exfalso
        by_cases hl : (usersCallLoop o (addUsersEvt s subPriority uidRanges)
            s.interfaces).1 = 0
        · have h0 := hLHS.1
          simp [addUsers, hv, hca, hl, EINVAL] at h0
        · obtain ⟨pre, i, rest, _, _, _, htr⟩ := usersCallLoop_err _ hl
          have h1 := hLHS.2
          simp [addUsers, hv, hca, hl] at h1
          rw [htr] at h1
          simp at h1
      · exact Or.inr (by simpa using hca)
    · exact Or.inl (by simpa using hv)

/-- C6 witness: a concretely invalid sub-priority (2000) and the concrete
equivalence instance for `removeUsers`. -/
theorem subPriority_validation_witness :
    addUsers oAllOk canAddAll sEth [] 2000 = ⟨-EINVAL, sEth, []⟩ ∧
    ((removeUsers oAllOk sEth [] 2000).ret = -EINVAL ∧
      (removeUsers oAllOk sEth [] 2000).trace = [] ∧
      (removeUsers oAllOk sEth [] 2000).st = sEth) :=
  ⟨(subPriority_validation oAllOk canAddAll sEth [] 2000).2.1 (by decide),
   (subPriority_validation oAllOk canAddAll sEth [] 2000).1.mpr (by decide)⟩

theorem addToDefault_congr {o o2 : Oracle}
    (hagree : ∀ e, isSockDiagEvt e = false → o.call e = o2.call e)
    (n : Nat) (i : String) (p : Permission) :
    addToDefault o n i p = addToDefault o2 n i p := by
  simp only [addToDefault,
    hagree (Event.rcAddInterfaceToDefaultNetwork i p) rfl,
    hagree (Event.delegateAddFallthrough i p) rfl]

theorem removeFromDefault_congr {o o2 : Oracle}
    (hagree : ∀ e, isSockDiagEvt e = false → o.call e = o2.call e)
    (n : Nat) (i : String) (p : Permission) :
    removeFromDefault o n i p = removeFromDefault o2 n i p := by
  simp only [removeFromDefault,
    hagree (Event.rcRemoveInterfaceFromDefaultNetwork i p) rfl,
    hagree (Event.delegateRemoveFallthrough i p) rfl]

theorem modifyPermissionLoop_congr {o o2 : Oracle}
    (hagree : ∀ e, isSockDiagEvt e = false → o.call e = o2.call e)
    (n : Nat) (po pn : Permission) (lo : Bool) :
    ∀ l, modifyPermissionLoop o n po pn lo l = modifyPermissionLoop o2 n po pn lo l := by
  intro l
  induction l with
  | nil => rfl
  | cons i rest ih =>
    simp only [modifyPermissionLoop,
      hagree (Event.rcModifyPhysicalNetworkPermission n i po pn lo) rfl, ih]

theorem permissionDefaultLoop_congr {o o2 : Oracle}
    (hagree : ∀ e, isSockDiagEvt e = false → o.call e = o2.call e)
    (n : Nat) (po pn : Permission) :
    ∀ l, permissionDefaultLoop o n po pn l = permissionDefaultLoop o2 n po pn l := by
  intro l
  induction l with
  | nil => rfl
  | cons j rest ih =>
    simp only [permissionDefaultLoop, addToDefault_congr hagree n j pn,
      removeFromDefault_congr hagree n j po, ih]

/-- C1 counterexample: with a facility that cannot open, one attached
interface and a new permission, `destroySocketsLackingPermission` reports
`-EBADFD`, yet `setPermission` returns success and proceeds to update the
stored permission — the diagnostics failure is not returned to the caller. -/
theorem setPermission_ignores_sockdiag_failure_cex :
    (destroySocketsLackingPermission oDiagFail 1 Permission.PERMISSION_SYSTEM).1 = -EBADFD ∧
    Event.sdOpen ∈ (setPermission oDiagFail sEth Permission.PERMISSION_SYSTEM).trace ∧
    (setPermission oDiagFail sEth Permission.PERMISSION_SYSTEM).ret = 0 ∧
    (setPermission oDiagFail sEth Permission.PERMISSION_SYSTEM).st.permission =
      Permission.PERMISSION_SYSTEM := by decide

/-- C1 (amended): a failure of the socket-diagnostics facility during
`setPermission` is reported by `destroySocketsLackingPermission` (`-EBADFD`
when it cannot open) but is discarded by `setPermission`: the returned code
and the final state depend only on the non-sockdiag collaborator results. -/
theorem setPermission_sockdiag_independent (o o2 : Oracle) (s : PhysicalNetwork)
    (p : Permission)
    (hagree : ∀ e, isSockDiagEvt e = false → o.call e = o2.call e) :
    (o.sdOpenOk = false → p ≠ Permission.PERMISSION_NONE →
      (destroySocketsLackingPermission o s.netId p).1 = -EBADFD) ∧
    (setPermission o s p).ret = (setPermission o2 s p).ret ∧
    (setPermission o s p).st = (setPermission o2 s p).st := by
  refine ⟨fun h1 h2 => by simp [destroySocketsLackingPermission, h1, h2], ?_⟩
  by_cases hp : p = s.permission
  · simp [setPermission, hp]
  · by_cases hi : s.interfaces = []
    · simp [setPermission, hp, hi]
    · have hmm : modifyPermissionLoop o s.netId s.permission p s.isLocalNetwork
          s.interfaces =
          modifyPermissionLoop o2 s.netId s.permission p s.isLocalNetwork s.interfaces :=
        modifyPermissionLoop_congr hagree _ _ _ _ _
      have hdd : (if s.isDefault then
            permissionDefaultLoop o s.netId s.permission p s.interfaces
          else ((0 : Int), ([] : List Event))) =
          (if s.isDefault then
            permissionDefaultLoop o2 s.netId s.permission p s.interfaces
          else ((0 : Int), ([] : List Event))) := by
        rw [permissionDefaultLoop_congr hagree]
      rcases setPermission_spec o s p hp hi with ⟨h1, hq⟩ | ⟨h1, h2, hq⟩ | ⟨h1, h2, hq⟩ <;>
        rcases setPermission_spec o2 s p hp hi with ⟨g1, gq⟩ | ⟨g1, g2, gq⟩ | ⟨g1, g2, gq⟩ <;>
        rw [hq, gq] <;> refine ⟨?_, ?_⟩ <;> simp_all

/-- C1 witness: the amended theorem at the concrete failing-diagnostics
oracle against the all-succeeding oracle. -/
theorem setPermission_sockdiag_independent_witness :
    (destroySocketsLackingPermission oDiagFail sEth.netId Permission.PERMISSION_SYSTEM).1 =
      -EBADFD ∧
    (setPermission oDiagFail sEth Permission.PERMISSION_SYSTEM).ret =
      (setPermission oAllOk sEth Permission.PERMISSION_SYSTEM).ret :=
  ⟨(setPermission_sockdiag_independent oDiagFail oAllOk sEth Permission.PERMISSION_SYSTEM
      (fun _ _ => rfl)).1 rfl (by decide),
   (setPermission_sockdiag_independent oDiagFail oAllOk sEth Permission.PERMISSION_SYSTEM
      (fun _ _ => rfl)).2.1⟩

theorem modifyLoop_critical_ok {o : Oracle} {n : Nat} {po pn : Permission} {lo : Bool} :
    ∀ l, (modifyPermissionLoop o n po pn lo l).1 = 0 →
      ∀ e ∈ (modifyPermissionLoop o n po pn lo l).2,
        isCriticalEvt e = true → o.call e = 0 := by
  intro l
  induction l with
  | nil => intro _ e he; simp [modifyPermissionLoop] at he
  | cons i rest ih =>
    intro h e he hcrit
    by_cases hc : o.call (Event.rcModifyPhysicalNetworkPermission n i po pn lo) = 0
    · have hstep : modifyPermissionLoop o n po pn lo (i :: rest) =
          ((modifyPermissionLoop o n po pn lo rest).1,
           Event.rcModifyPhysicalNetworkPermission n i po pn lo ::
             (invalidateRouteCache i ++ (modifyPermissionLoop o n po pn lo rest).2)) := by
        simp [modifyPermissionLoop, hc]
      rw [hstep] at h he
      rcases List.mem_cons.1 he with rfl | he2
      · exact hc
      · rcases List.mem_append.1 he2 with he3 | he3
        · exact absurd hcrit (by simp [(invalidate_events he3).2.1])
        · exact ih h e he3 hcrit
    · exfalso
      have hstep : (modifyPermissionLoop o n po pn lo (i :: rest)).1 =
          o.call (Event.rcModifyPhysicalNetworkPermission n i po pn lo) := by
        simp [modifyPermissionLoop, hc]
      rw [hstep] at h
      exact hc h

theorem addToDefault_ok_calls {o : Oracle} {n : Nat} {i : String} {p : Permission}
    (h : (addToDefault o n i p).1 = 0) :
    ∀ e ∈ (addToDefault o n i p).2, o.call e = 0 := by
  by_cases h1 : o.call (Event.rcAddInterfaceToDefaultNetwork i p) = 0
  · by_cases h2 : o.call (Event.delegateAddFallthrough i p) = 0
    · intro e he
      have ht : (addToDefault o n i p).2 =
          [Event.rcAddInterfaceToDefaultNetwork i p,
           Event.delegateAddFallthrough i p] := by
        simp [addToDefault, h1, h2]
      rw [ht] at he
      rcases List.mem_cons.1 he with rfl | he2
      · exact h1
      · rcases List.mem_cons.1 he2 with rfl | he3
        · exact h2
        · simp at he3
    · exfalso; simp_all [addToDefault]
  · exfalso; simp_all [addToDefault]

theorem removeFromDefault_ok_calls {o : Oracle} {n : Nat} {i : String} {p : Permission}
    (h : (removeFromDefault o n i p).1 = 0) :
    ∀ e ∈ (removeFromDefault o n i p).2, o.call e = 0 := by
  by_cases h1 : o.call (Event.rcRemoveInterfaceFromDefaultNetwork i p) = 0
  · by_cases h2 : o.call (Event.delegateRemoveFallthrough i p) = 0
    · intro e he
      have ht : (removeFromDefault o n i p).2 =
          [Event.rcRemoveInterfaceFromDefaultNetwork i p,
           Event.delegateRemoveFallthrough i p] := by
        simp [removeFromDefault, h1, h2]
      rw [ht] at he
      rcases List.mem_cons.1 he with rfl | he2
      · exact h1
      · rcases List.mem_cons.1 he2 with rfl | he3
        · exact h2
        · simp at he3
    · exfalso; simp_all [removeFromDefault]
  · exfalso; simp_all [removeFromDefault]

theorem permissionDefaultLoop_ok_calls {o : Oracle} {n : Nat} {po pn : Permission} :
    ∀ l, (permissionDefaultLoop o n po pn l).1 = 0 →
      ∀ e ∈ (permissionDefaultLoop o n po pn l).2, o.call e = 0 := by
  intro l
  induction l with
  | nil => intro _ e he; simp [permissionDefaultLoop] at he
  | cons j rest ih =>
    intro h e he
    by_cases h1 : (addToDefault o n j pn).1 = 0
    · by_cases h2 : (removeFromDefault o n j po).1 = 0
      · have hstep : permissionDefaultLoop o n po pn (j :: rest) =
            ((permissionDefaultLoop o n po pn rest).1,
             (addToDefault o n j pn).2 ++ ((removeFromDefault o n j po).2 ++
               (permissionDefaultLoop o n po pn rest).2)) := by
          simp [permissionDefaultLoop, h1, h2]
        rw [hstep] at h he
        rcases List.mem_append.1 he with he2 | he2
        · exact addToDefault_ok_calls h1 e he2
        · rcases List.mem_append.1 he2 with he3 | he3
          · exact removeFromDefault_ok_calls h2 e he3
          · exact ih h e he3
      · exfalso
        have hstep : (permissionDefaultLoop o n po pn (j :: rest)).1 =
            (removeFromDefault o n j po).1 := by
          simp [permissionDefaultLoop, h1, h2]
        rw [hstep] at h
        exact h2 h
    · exfalso
      have hstep : (permissionDefaultLoop o n po pn (j :: rest)).1 =
          (addToDefault o n j pn).1 := by
        simp [permissionDefaultLoop, h1]
      rw [hstep] at h
      exact h1 h

/-- C2 counterexample: with the diagnostics facility failing to open, a new
permission and one attached interface, `setPermission` updates the stored
permission even though a recorded collaborator step (the SockDiag open) did
not succeed — refuting "updated only when every collaborator step
succeeds". -/
theorem setPermission_update_despite_failure_cex :
    (setPermission oDiagFail sEth Permission.PERMISSION_SYSTEM).st.permission =
      Permission.PERMISSION_SYSTEM ∧
    ((setPermission oDiagFail sEth Permission.PERMISSION_SYSTEM).trace.all
      (eventSucceeded oDiagFail)) = false := by decide

/-- C2 (amended): for `setPermission` with a new target permission — empty
interface set: direct update, success, no collaborator call; error return:
the whole state (hence the stored permission read by `getPermission`) is
unchanged; success return: the stored permission is updated and every
per-interface routing/fallthrough (critical) collaborator step in the call
succeeded (socket-diagnostics and route-cache steps are excluded: their
failures are ignored by design). -/
theorem setPermission_update_conditions (o : Oracle) (s : PhysicalNetwork)
    (p : Permission) (hne : p ≠ s.permission) :
    (s.interfaces = [] → setPermission o s p = ⟨0, { s with permission := p }, []⟩) ∧
    ((setPermission o s p).ret ≠ 0 → (setPermission o s p).st = s) ∧
    ((setPermission o s p).ret = 0 → (setPermission o s p).st.permission = p ∧
      ∀ e ∈ (setPermission o s p).trace, isCriticalEvt e = true → o.call e = 0) := by
  have hne2 : ¬ p = s.permission := hne
  refine ⟨fun hi => by simp [setPermission, hne2, hi], ?_, ?_⟩ <;>
    by_cases hi : s.interfaces = []
  · simp [setPermission, hne2, hi]
  · rcases setPermission_spec o s p hne2 hi with ⟨h1, hq⟩ | ⟨h1, h2, hq⟩ | ⟨h1, h2, hq⟩ <;>
      rw [hq] <;> intro h
    · rfl
    · rfl
    · exact absurd rfl h
  · simp [setPermission, hne2, hi]
  · rcases setPermission_spec o s p hne2 hi with ⟨h1, hq⟩ | ⟨h1, h2, hq⟩ | ⟨h1, h2, hq⟩ <;>
      rw [hq] <;> intro h
    · exact absurd h h1
    · exact absurd h h2
    · refine ⟨rfl, ?_⟩
      intro e he hcrit
      rcases List.mem_append.1 he with he1 | he2
      · exact absurd hcrit (by simp [(sockdiag_not_other (destroy_trace_sockdiag he1)).1])
      · rcases List.mem_append.1 he2 with he3 | he4
        · exact modifyLoop_critical_ok _ h1 e he3 hcrit
        · rcases List.mem_append.1 he4 with he5 | he6
          · by_cases hdef : s.isDefault = true
            · rw [if_pos hdef] at he5 h2
              exact permissionDefaultLoop_ok_calls _ h2 e he5
            · rw [if_neg hdef] at he5
              simp at he5
          · exact absurd hcrit
              (by simp [(sockdiag_not_other (destroy_trace_sockdiag he6)).1])

/-- C2 witness: the amended theorem at a concrete all-succeeding oracle. -/
theorem setPermission_update_conditions_witness :
    (setPermission oAllOk sEth Permission.PERMISSION_SYSTEM).ret = 0 ∧
    (setPermission oAllOk sEth Permission.PERMISSION_SYSTEM).st.permission =
      Permission.PERMISSION_SYSTEM :=
  ⟨by decide,
   ((setPermission_update_conditions oAllOk sEth Permission.PERMISSION_SYSTEM
      (by decide)).2.2 (by decide)).1⟩

/-- C7 witness: concrete failing collaborator. -/
theorem addInterface_failure_no_insert_witness :
    (addInterface oAllFail sEth "wlan0").ret ≠ 0 ∧
    (addInterface oAllFail sEth "wlan0").st = sEth ∧
    removeInterface oAllOk (addInterface oAllFail sEth "wlan0").st "wlan0" =
      ⟨0, (addInterface oAllFail sEth "wlan0").st, []⟩ :=
  ⟨by decide,
   (addInterface_failure_no_insert oAllFail oAllOk sEth "wlan0" (by decide)).1,
   (addInterface_failure_no_insert oAllFail oAllOk sEth "wlan0" (by decide)).2.2⟩

end NetdPhysicalNetwork
